import Mathlib

/-!
Shallow embedding of the church-website server (src/server.js) for the
claims under verification.  Timestamps are modelled as natural numbers of
milliseconds since the Unix epoch (the local timezone is taken as UTC), a
JavaScript Date being just such a number.  The in-memory fallback lists
(tempMessages, tempAnnouncements) and the route handlers acting on them are
translated directly from server.js; the durable MongoDB operations used by
the same routes (updateMany / findByIdAndUpdate / findByIdAndDelete /
filter-sort-limit queries) have the same list-level semantics, which is
noted at each definition they share.
-/

namespace ChurchSite

/-- Binary attachment stored with a message (schema field pdfFile,
server.js lines 77-82): raw bytes plus metadata. -/
structure PdfFile where
  data : List Nat
  contentType : String
  filename : String
  size : Nat
deriving Repr, DecidableEq

/-- Image attachment (schema fields imageFile on events and announcements). -/
structure ImageFile where
  data : List Nat
  contentType : String
  filename : String
  size : Nat
deriving Repr, DecidableEq

/-- A message record (messageSchema, server.js lines 69-86, plus the _id
key used by both MongoDB documents and the fallback-list objects). -/
structure Msg where
  _id : String
  title : String
  code : String
  date : Nat
  author : String
  description : String
  filePath : String
  pdfFile : Option PdfFile
  featured : Bool
deriving Repr, DecidableEq

/-- An event record (eventSchema, server.js lines 91-110). -/
structure Event where
  _id : String
  title : String
  date : Nat
  endDate : Option Nat
  venue : String
  description : String
  imagePath : String
  imageFile : Option ImageFile
  link : String
  featured : Bool
  active : Bool
  category : String
deriving Repr, DecidableEq

/-- An announcement record (announcementSchema, server.js lines 148-201);
createdAt is the timestamp added by mongoose timestamps or set explicitly
in the fallback branch (line 559). -/
structure Ann where
  _id : String
  title : String
  content : String
  priority : Nat
  type : String
  backgroundColor : String
  textColor : String
  imageFile : Option ImageFile
  featured : Bool
  active : Bool
  expiresAt : Option Nat
  createdAt : Nat
  displayOrder : Nat
deriving Repr, DecidableEq

/-- Lifecycle status derived for every event on read
(calculateEventStatus, server.js lines 1216-1243). -/
inductive EventStatus where
  | upcoming
  | ongoing
  | completed
deriving Repr, DecidableEq

/-- Milliseconds in one day. -/
def msPerDay : Nat := 86400000

/-- The instant eventDay.setHours(23, 59, 59, 999) of server.js line 1233:
the last millisecond of the calendar day containing instant d. -/
def dayEnd (d : Nat) : Nat := d - d % msPerDay + (msPerDay - 1)

/-- calculateEventStatus (server.js lines 1216-1243), with the wall-clock
read `const now = new Date()` of line 1217 made an explicit argument.
With an endDate the event is upcoming before the start, ongoing from start
through endDate, completed after; without one the end of the start day is
used in place of endDate. -/
def calculateEventStatus (date : Nat) (endDate : Option Nat) (now : Nat) : EventStatus :=
  match endDate with
  | some ed =>
    if now < date then .upcoming
    else if date ≤ now ∧ now ≤ ed then .ongoing
    else .completed
  | none =>
    let eventDay := dayEnd date
    if now < date then .upcoming
    else if now ≤ eventDay then .ongoing
    else .completed

/-- Outcome of a route handler, abstracting the express response it sends:
a redirect (res.redirect), a 400 (res.status(400).send), a 404
(res.status(404).send) or a 500 (res.status(500).send). -/
inductive HttpResult where
  | redirect (loc : String)
  | badRequest (msg : String)
  | notFound (msg : String)
  | serverError (msg : String)
deriving Repr, DecidableEq

/-- Lookup by id in the fallback list:
tempMessages.find(msg => msg._id === messageId), as used by the /pdf,
/preview and /edit routes and by update re-reads. -/
def findMsgTemp (messageId : String) (l : List Msg) : Option Msg :=
  l.find? (fun m => m._id == messageId)

/-- tempMessages.forEach(msg => msg.featured = false) of server.js line
1602; the durable branch runs Message.updateMany({}, { featured: false })
(line 1588) with the same effect on the document list. -/
def clearFeatured (l : List Msg) : List Msg :=
  l.map (fun m => { m with featured := false })

/-- The findIndex-and-set step of server.js lines 1603-1605: locate the
first list entry with the given _id and set its featured flag, returning
none when no entry matches (the 404 branch of lines 1607-1609).  The
durable branch, Message.findByIdAndUpdate(id, { featured: true }) of line
1590, updates the (unique) document with that _id the same way. -/
def featureFirst (messageId : String) : List Msg → Option (List Msg)
  | [] => none
  | m :: t =>
    if m._id == messageId then some ({ m with featured := true } :: t)
    else (featureFirst messageId t).map (m :: ·)

/-- The POST /featured/:id handler (server.js lines 1580-1618) acting on
the message list: first every featured flag is cleared, then the target is
looked up; a hit is set featured and the handler redirects with success, a
miss answers 404 with the already-cleared list left in place. -/
def postFeatured (messageId : String) (l : List Msg) : HttpResult × List Msg :=
  let cleared := clearFeatured l
  match featureFirst messageId cleared with
  | some l2 => (.redirect "/admin?success=Message set as featured successfully", l2)
  | none => (.notFound "Message not found", cleared)

/-- tempMessages = tempMessages.filter(msg => msg._id !== messageId) of
server.js line 1735; Message.findByIdAndDelete (line 1724) removes the
same documents from the durable collection. -/
def deleteMessageTemp (messageId : String) (l : List Msg) : List Msg :=
  l.filter (fun m => m._id != messageId)

/-- The POST /delete/:id handler (server.js lines 1717-1748): it filters
the list and redirects with a success message unconditionally; the
absent-id case is only logged (lines 1728, 1739), never answered as 404. -/
def postDelete (messageId : String) (l : List Msg) : HttpResult × List Msg :=
  (.redirect "/admin?success=Message deleted successfully", deleteMessageTemp messageId l)

/-- tempAnnouncements = tempAnnouncements.filter(ann => ann._id !==
announcementId) of server.js line 728. -/
def deleteAnnTemp (announcementId : String) (l : List Ann) : List Ann :=
  l.filter (fun a => a._id != announcementId)

/-- The POST /delete-announcement/:id handler (server.js lines 714-741):
like message deletion it filters and redirects with success
unconditionally, logging but never surfacing the absent-id case. -/
def postDeleteAnnouncement (announcementId : String) (l : List Ann) : HttpResult × List Ann :=
  (.redirect "/admin-announcements?success=Announcement deleted successfully",
    deleteAnnTemp announcementId l)

/-- A multer-parsed upload (req.file): in-memory buffer plus metadata. -/
structure FilePart where
  buffer : List Nat
  mimetype : String
  originalname : String
  size : Nat
deriving Repr, DecidableEq

/-- The pdfFile subdocument built from req.file
(server.js lines 1678-1683). -/
def pdfOfFile (f : FilePart) : PdfFile :=
  { data := f.buffer, contentType := f.mimetype, filename := f.originalname, size := f.size }

/-- The form fields destructured from req.body by POST /upload and POST
/update/:id (server.js lines 1660, 1502); the date arrives as a string
and is parsed with new Date(date). -/
structure MsgBody where
  title : String
  code : String
  date : String
  author : String
  description : String
deriving Repr, DecidableEq

/-- The newMessage object built by POST /upload (server.js lines
1666-1686) before a storage branch is chosen: the five form fields, the
parsed date, featured false, and, when a file was uploaded, the pdfFile
subdocument plus a backward-compatibility filePath stamped with
Date.now().  new Date(date) is modelled by the parseDate argument and
Date.now() by nowMs. -/
def newMessageOfBody (b : MsgBody) (file : Option FilePart) (parseDate : String → Nat)
    (nowMs : Nat) : Msg :=
  { _id := ""
    title := b.title
    code := b.code
    date := parseDate b.date
    author := b.author
    description := b.description
    filePath := match file with
      | some f => "/pdf/" ++ toString nowMs ++ "-" ++ f.originalname
      | none => ""
    pdfFile := file.map pdfOfFile
    featured := false }

/-- POST /upload (server.js lines 1658-1714) with the durable backend
unavailable: empty required fields answer 400; otherwise the fallback
branch (lines 1698-1707) stamps _id := Date.now().toString(), clears
filePath when a file was uploaded (the pdfFile buffer itself is left on
the object), unshifts the message onto tempMessages and redirects with a
success message. -/
def postUploadNoDb (b : MsgBody) (file : Option FilePart) (parseDate : String → Nat)
    (nowMs : Nat) (temp : List Msg) : HttpResult × List Msg :=
  if b.title == "" || b.code == "" || b.date == "" || b.author == "" ||
      b.description == "" then
    (.badRequest "Please fill in all required fields", temp)
  else
    let m0 := newMessageOfBody b file parseDate nowMs
    let m1 := { m0 with
      _id := toString nowMs
      filePath := if file.isSome then "" else m0.filePath }
    (.redirect "/admin?success=Message uploaded successfully", m1 :: temp)

/-- First seeded fallback message of server.js lines 244-253 (its date
2023-10-15 taken at UTC midnight in milliseconds). -/
def tempMsg1 : Msg :=
  { _id := "1", title := "The Power of Faith", code := "PF", date := 1697328000000,
    author := "Pastor John",
    description := "Exploring how faith can move mountains in our daily lives and strengthen our relationship with God.",
    filePath := "/pdf/1", pdfFile := none, featured := true }

/-- Second seeded fallback message of server.js lines 254-263. -/
def tempMsg2 : Msg :=
  { _id := "2", title := "Divine Mercy", code := "MD", date := 1696723200000,
    author := "Pastor Mark",
    description := "Understanding God\x27s infinite mercy and how it transforms our lives when we accept it.",
    filePath := "/pdf/2", pdfFile := none, featured := false }

/-- Third seeded fallback message of server.js lines 264-273. -/
def tempMsg3 : Msg :=
  { _id := "3", title := "Joy in Giving", code := "JPEG", date := 1696118400000,
    author := "Pastor Sarah",
    description := "Discovering the joy and blessings that come from a generous heart and giving spirit.",
    filePath := "/pdf/3", pdfFile := none, featured := false }

/-- Fourth seeded fallback message of server.js lines 274-283. -/
def tempMsg4 : Msg :=
  { _id := "4", title := "Hope in Trials", code := "HT", date := 1695513600000,
    author := "Pastor James",
    description := "Finding hope and strength in God during difficult times and trials.",
    filePath := "", pdfFile := none, featured := false }

/-- The seeded fallback list tempMessages of server.js lines 243-284. -/
def tempMessagesInit : List Msg := [tempMsg1, tempMsg2, tempMsg3, tempMsg4]

/-- The seven fields the POST /update/:id handler writes into the stored
message (the updatedMessage object, server.js lines 1508-1545). -/
structure MsgPatch where
  title : String
  code : String
  date : Nat
  author : String
  description : String
  filePath : String
  pdfFile : Option PdfFile
deriving Repr, DecidableEq

/-- The updatedMessage object of POST /update/:id (server.js lines
1508-1545): the five form fields always; then removeFile === 'on' clears
both filePath and pdfFile (lines 1517-1519); else a new upload installs
its pdfFile and points filePath at /pdf/:id (lines 1520-1528); else the
existing attachment is re-read from the store (tempMessages.find on the
fallback path, lines 1536 and 1541) and copied over unchanged, an absent
entry defaulting to empty path and null file (lines 1538-1543). -/
def updatePatch (b : MsgBody) (removeFile : Bool) (file : Option FilePart)
    (messageId : String) (parseDate : String → Nat) (l : List Msg) : MsgPatch :=
  let base : MsgPatch :=
    { title := b.title, code := b.code, date := parseDate b.date, author := b.author,
      description := b.description, filePath := "", pdfFile := none }
  if removeFile then
    { base with filePath := "", pdfFile := none }
  else
    match file with
    | some f => { base with filePath := "/pdf/" ++ messageId, pdfFile := some (pdfOfFile f) }
    | none =>
      let existing := findMsgTemp messageId l
      { base with
        filePath := (existing.map (fun m => m.filePath)).getD ""
        pdfFile := (existing.map (fun m => m.pdfFile)).getD none }

/-- The findIndex-and-merge step of server.js lines 1562-1564: replace the
first entry whose _id matches with the spread of the old object and the
updatedMessage, which overwrites exactly the seven patch fields and keeps
_id and featured; none when no entry matches (the 404 branch of lines
1566-1568). -/
def setAtFirst (messageId : String) (p : MsgPatch) : List Msg → Option (List Msg)
  | [] => none
  | m :: t =>
    if m._id == messageId then
      some ({ m with
        title := p.title
        code := p.code
        date := p.date
        author := p.author
        description := p.description
        filePath := p.filePath
        pdfFile := p.pdfFile } :: t)
    else (setAtFirst messageId p t).map (m :: ·)

/-- POST /update/:id (server.js lines 1499-1577) with the durable backend
unavailable: empty required fields answer 400 first; otherwise the
updatedMessage patch is built and merged into the first matching entry of
tempMessages; an absent id answers 404 with the list unchanged. -/
def postUpdateNoDb (b : MsgBody) (removeFile : Bool) (file : Option FilePart)
    (messageId : String) (parseDate : String → Nat) (l : List Msg) : HttpResult × List Msg :=
  if b.title == "" || b.code == "" || b.date == "" || b.author == "" ||
      b.description == "" then
    (.badRequest "Please fill in all required fields", l)
  else
    let p := updatePatch b removeFile file messageId parseDate l
    match setAtFirst messageId p l with
    | some l2 => (.redirect "/admin?success=Message updated successfully", l2)
    | none => (.notFound "Message not found", l)

/-- What GET /pdf/:id sends back (server.js lines 300-336). -/
inductive PdfOutcome where
  | messageNotFound
  | serveStored (f : PdfFile)
  | serveFsFile (p : String)
  | noPdf
deriving Repr, DecidableEq

/-- GET /pdf/:id on the fallback path (server.js lines 300-336): the
message is looked up in tempMessages; an absent id answers 404 Message not
found; a stored pdfFile is served from the database copy; otherwise a
non-empty legacy filePath that exists on disk (fs.existsSync, modelled by
the fsExists argument) is served from the filesystem; else 404 No PDF
available for this message. -/
def getPdfNoDb (messageId : String) (l : List Msg) (fsExists : String → Bool) : PdfOutcome :=
  match findMsgTemp messageId l with
  | none => .messageNotFound
  | some m =>
    match m.pdfFile with
    | some f => .serveStored f
    | none =>
      if m.filePath != "" && fsExists m.filePath then .serveFsFile m.filePath
      else .noPdf

/-- JS String.prototype.toLowerCase over the ASCII data appearing in the
store: each character lowered individually. -/
def toLowerStr (s : String) : String := String.mk (s.data.map Char.toLower)

/-- JS String.prototype.trim: strip leading and trailing whitespace. -/
def jsTrim (s : String) : String :=
  String.mk (((s.data.dropWhile Char.isWhitespace).reverse.dropWhile Char.isWhitespace).reverse)

/-- JS String.prototype.includes on character lists: the needle occurs
contiguously in the haystack. -/
def containsSub (needle : List Char) : List Char → Bool
  | [] => needle.isEmpty
  | c :: t => needle.isPrefixOf (c :: t) || containsSub needle t

/-- hay.includes(needle) on strings. -/
def strIncludes (hay needle : String) : Bool := containsSub needle.data hay.data

/-- The search predicate of GET /search on the fallback path (server.js
lines 969-974): the lower-cased term occurs in the lower-cased title,
description, author or code. -/
def msgMatches (term : String) (m : Msg) : Bool :=
  strIncludes (toLowerStr m.title) (toLowerStr term) ||
  strIncludes (toLowerStr m.description) (toLowerStr term) ||
  strIncludes (toLowerStr m.author) (toLowerStr term) ||
  strIncludes (toLowerStr m.code) (toLowerStr term)

/-- Outcome of GET /search: the redirect to /messages for a missing
query, or the rendered result list. -/
inductive SearchOutcome where
  | redirectMessages
  | results (msgs : List Msg)
deriving Repr, DecidableEq

/-- GET /search (server.js lines 939-997) on the fallback path: an
absent, empty or whitespace-only q redirects to /messages (lines
945-947); otherwise searchTerm = query.trim() (line 949) and tempMessages
is filtered by the search predicate (lines 969-974). -/
def searchRoute (q : String) (l : List Msg) : SearchOutcome :=
  if jsTrim q == "" then .redirectMessages
  else .results (l.filter (msgMatches (jsTrim q)))

/-- The comparator of the announcement listings (server.js lines 823-828)
turned into the Boolean relation compare(a, b) <= 0 (a may come before b):
featured entries first, then higher priority, then newer createdAt. -/
def annCmpLe (a b : Ann) : Bool :=
  if a.featured && !b.featured then true
  else if !a.featured && b.featured then false
  else if a.priority != b.priority then decide (b.priority ≤ a.priority)
  else decide (b.createdAt ≤ a.createdAt)

/-- The visibility filter of GET /active-announcements (server.js line
822): active, and either no expiresAt or one strictly in the future. -/
def annVisible (now : Nat) (a : Ann) : Bool :=
  a.active && (match a.expiresAt with
    | none => true
    | some e => decide (now < e))

/-- GET /active-announcements on the fallback path (server.js lines
820-829, repeated verbatim in the catch branch at lines 831-840): filter
to visible announcements, sort with the comparator (Array.prototype.sort
with a consistent comparator, modelled by merge sort), keep the first
three. -/
def activeAnnouncementsTemp (now : Nat) (l : List Ann) : List Ann :=
  ((l.filter (annVisible now)).mergeSort annCmpLe).take 3

/-- The messages-page comparator (server.js lines 915-919) as compare(a,
b) <= 0: featured entries first, then newer date first. -/
def msgCmpLe (a b : Msg) : Bool :=
  if a.featured && !b.featured then true
  else if !a.featured && b.featured then false
  else decide (b.date ≤ a.date)

/-- GET /messages on the fallback path (server.js lines 913-920):
[...tempMessages].sort with the comparator. -/
def messagesPageTemp (l : List Msg) : List Msg := l.mergeSort msgCmpLe

/-- The ordering the claim asserts for the public announcement listing,
read as a relation between an earlier and a later output entry: featured
descending, then priority descending, then creation time descending. -/
def annOrdered (a b : Ann) : Prop :=
  (b.featured = true → a.featured = true) ∧
  (a.featured = b.featured →
    b.priority < a.priority ∨ (a.priority = b.priority ∧ b.createdAt ≤ a.createdAt))

/-- The ordering the claim asserts for the all-messages view: featured
entries strictly before unfeatured ones, date descending within a
group. -/
def msgOrdered (a b : Msg) : Prop :=
  (b.featured = true → a.featured = true) ∧
  (a.featured = b.featured → b.date ≤ a.date)

/-- server.js seeds fallback lists for messages (let tempMessages, line
243) and announcements (let tempAnnouncements, line 206), but no
declaration of tempEvents exists anywhere in the file although seventeen
places use it; in non-strict mode reading an undeclared identifier throws
a ReferenceError, so the binding for the event fallback list is modelled
as absent. -/
def tempEventsDecl : Option (List Event) := none

/-- The form fields destructured from req.body by POST /upload-event
(server.js line 1086). -/
structure EventBody where
  title : String
  date : String
  endDate : String
  venue : String
  description : String
  link : String
  featured : Bool
deriving Repr, DecidableEq

/-- POST /upload-event (server.js lines 1084-1139) with the durable
backend unavailable: empty required fields or a missing image file answer
400 (line 1088); otherwise the Mongo branch throws MongoDB not connected
(line 1126) and the catch branch (lines 1128-1132) evaluates
tempEvents.unshift(newEvent); tempEvents has no declaration, so the read
throws a ReferenceError which the outer catch turns into a 500 with the
error text appended (line 1137).  Were the binding present, the branch
would unshift and redirect with success (lines 1130, 1134). -/
def postUploadEventNoDb (b : EventBody) (file : Option ImageFile) : HttpResult :=
  if b.title == "" || b.date == "" || b.venue == "" || b.description == "" ||
      file.isNone then
    .badRequest "Please fill in all required fields"
  else
    match tempEventsDecl with
    | some _ => .redirect "/admin-events?success=Event uploaded successfully"
    | none => .serverError "Error uploading event: tempEvents is not defined"

/-- POST /delete-event/:id (server.js lines 1192-1214) with the durable
backend unavailable: the catch branch (line 1205) reads tempEvents, which
has no declaration, so the handler answers 500 (line 1212) instead of
filtering the fallback list and redirecting with success. -/
def postDeleteEventNoDb (_eventId : String) : HttpResult :=
  match tempEventsDecl with
  | some _ => .redirect "/admin-events?success=Event deleted successfully"
  | none => .serverError "Error deleting event"

-- ===== THEOREMS =====
theorem dayEnd_ge (d : Nat) : d ≤ dayEnd d := by
  unfold dayEnd msPerDay
  omega

/-- C3: for every event the derived status is one of upcoming, ongoing,
completed, and it is computed exactly as the claim states: with an endDate
present, upcoming when now is before the start, ongoing when start <= now
<= endDate, completed otherwise; with no endDate, upcoming before the
start, ongoing up to the last millisecond (23:59:59.999) of the start day,
completed after.  The wall clock is read once into `now`, so the result is
a function of (date, endDate, now) alone: the final conjunct states that a
second call at the same inputs yields the same result. -/
theorem claim3_event_status (d : Nat) (ed : Option Nat) (n : Nat) :
    (calculateEventStatus d ed n = .upcoming ∨ calculateEventStatus d ed n = .ongoing ∨
      calculateEventStatus d ed n = .completed) ∧
    (∀ e, ed = some e →
      (n < d → calculateEventStatus d ed n = .upcoming) ∧
      (d ≤ n → n ≤ e → calculateEventStatus d ed n = .ongoing) ∧
      (d ≤ n → e < n → calculateEventStatus d ed n = .completed)) ∧
    (ed = none →
      (n < d → calculateEventStatus d ed n = .upcoming) ∧
      (d ≤ n → n ≤ dayEnd d → calculateEventStatus d ed n = .ongoing) ∧
      (dayEnd d < n → calculateEventStatus d ed n = .completed)) ∧
    calculateEventStatus d ed n = calculateEventStatus d ed n := by
  have hde : d ≤ dayEnd d := dayEnd_ge d
  refine ⟨?_, ?_, ?_, rfl⟩
  · cases ed <;> simp only [calculateEventStatus] <;> split_ifs <;> simp
  · rintro e rfl
    refine ⟨fun h => ?_, fun h1 h2 => ?_, fun h1 h2 => ?_⟩ <;>
      simp only [calculateEventStatus] <;> split_ifs <;> first | rfl | omega
  · rintro rfl
    refine ⟨fun h => ?_, fun h1 h2 => ?_, fun h1 => ?_⟩ <;>
      simp only [calculateEventStatus] <;> split_ifs <;> first | rfl | omega

theorem clearFeatured_map_id (l : List Msg) :
    (clearFeatured l).map (fun m => m._id) = l.map (fun m => m._id) := by
  simp [clearFeatured]

theorem mem_clearFeatured {m : Msg} {l : List Msg} (h : m ∈ clearFeatured l) :
    m.featured = false := by
  simp only [clearFeatured, List.mem_map] at h
  obtain ⟨m0, _, rfl⟩ := h
  rfl

theorem featureFirst_cons_pos {messageId : String} {m : Msg} {t : List Msg}
    (hm : m._id = messageId) :
    featureFirst messageId (m :: t) = some ({ m with featured := true } :: t) := by
  simp [featureFirst, hm]

theorem featureFirst_cons_neg {messageId : String} {m : Msg} {t : List Msg}
    (hm : m._id ≠ messageId) :
    featureFirst messageId (m :: t) = (featureFirst messageId t).map (m :: ·) := by
  simp [featureFirst, hm]

theorem featureFirst_eq_none_of_not_mem {messageId : String} {l : List Msg}
    (h : messageId ∉ l.map (fun m => m._id)) :
    featureFirst messageId l = none := by
  induction l with
  | nil => rfl
  | cons m t ih =>
    simp only [List.map_cons, List.mem_cons, not_or] at h
    rw [featureFirst_cons_neg (fun hc => h.1 hc.symm), ih h.2]
    rfl

theorem featureFirst_mem_some {messageId : String} {l : List Msg}
    (h : messageId ∈ l.map (fun m => m._id)) :
    ∃ l2, featureFirst messageId l = some l2 := by
  induction l with
  | nil => simp at h
  | cons m t ih =>
    by_cases hm : m._id = messageId
    · exact ⟨_, featureFirst_cons_pos hm⟩
    · simp only [List.map_cons, List.mem_cons] at h
      rcases h with h1 | h1
      · exact absurd h1.symm hm
      · obtain ⟨t2, ht2⟩ := ih h1
        exact ⟨m :: t2, by rw [featureFirst_cons_neg hm, ht2]; rfl⟩

theorem featureFirst_map_id {messageId : String} {l l2 : List Msg}
    (h : featureFirst messageId l = some l2) :
    l2.map (fun m => m._id) = l.map (fun m => m._id) := by
  induction l generalizing l2 with
  | nil => simp [featureFirst] at h
  | cons m t ih =>
    by_cases hm : m._id = messageId
    · rw [featureFirst_cons_pos hm] at h
      cases h
      simp
    · rw [featureFirst_cons_neg hm] at h
      cases hft : featureFirst messageId t with
      | none => rw [hft] at h; simp at h
      | some t2 =>
        rw [hft] at h
        have h2 : m :: t2 = l2 := by simpa using h
        subst h2
        simp [ih hft]

theorem featureFirst_spec {messageId : String} {l l2 : List Msg}
    (hall : ∀ m ∈ l, m.featured = false) (h : featureFirst messageId l = some l2) :
    l2.countP (fun m => m.featured) = 1 ∧
    ∀ m ∈ l2, m.featured = true → m._id = messageId := by
  induction l generalizing l2 with
  | nil => simp [featureFirst] at h
  | cons m t ih =>
    by_cases hm : m._id = messageId
    · rw [featureFirst_cons_pos hm] at h
      cases h
      have ht : t.countP (fun m => m.featured) = 0 := by
        rw [List.countP_eq_zero]
        intro a ha
        simp [hall a (List.mem_cons_of_mem m ha)]
      constructor
      · simp [List.countP_cons, ht]
      · intro x hx hxf
        rcases List.mem_cons.mp hx with rfl | hxt
        · exact hm
        · exact absurd hxf (by simp [hall x (List.mem_cons_of_mem m hxt)])
    · rw [featureFirst_cons_neg hm] at h
      cases hft : featureFirst messageId t with
      | none => rw [hft] at h; simp at h
      | some t2 =>
        rw [hft] at h
        have h2 : m :: t2 = l2 := by simpa using h
        subst h2
        have hmf : m.featured = false := hall m (List.mem_cons_self m t)
        obtain ⟨hc, hids⟩ := ih (fun a ha => hall a (List.mem_cons_of_mem m ha)) hft
        constructor
        · simp [List.countP_cons, hmf, hc]
        · intro x hx hxf
          rcases List.mem_cons.mp hx with rfl | hxt
          · exact absurd hxf (by simp [hmf])
          · exact hids x hxt hxf

theorem postFeatured_map_id (messageId : String) (l : List Msg) :
    ((postFeatured messageId l).2).map (fun m => m._id) = l.map (fun m => m._id) := by
  cases h : featureFirst messageId (clearFeatured l) with
  | none =>
    simp only [postFeatured, h]
    exact clearFeatured_map_id l
  | some l2 =>
    simp only [postFeatured, h]
    rw [featureFirst_map_id h, clearFeatured_map_id]

/-- C2: starting from any message list in which messages with ids A and B
exist, setting A featured and then B featured leaves exactly one featured
message, and that message has id B.  Requests are handled to completion one
at a time, so the state after the second handler returns is the first
observable state following the second call. -/
theorem claim2_featured_singleton (l : List Msg) (A B : String)
    (_hA : A ∈ l.map (fun m => m._id)) (hB : B ∈ l.map (fun m => m._id)) :
    ((postFeatured B (postFeatured A l).2).2).countP (fun m => m.featured) = 1 ∧
    ∀ m ∈ (postFeatured B (postFeatured A l).2).2, m.featured = true → m._id = B := by
  set l1 := (postFeatured A l).2 with hl1
  have hids1 : l1.map (fun m => m._id) = l.map (fun m => m._id) := postFeatured_map_id A l
  have hB1 : B ∈ (clearFeatured l1).map (fun m => m._id) := by
    rw [clearFeatured_map_id, hids1]; exact hB
  obtain ⟨l2, hfe⟩ := featureFirst_mem_some hB1
  have hall : ∀ m ∈ clearFeatured l1, m.featured = false := fun m hm => mem_clearFeatured hm
  have hres : (postFeatured B l1).2 = l2 := by
    simp only [postFeatured, hfe]
  rw [hres]
  exact featureFirst_spec hall hfe

/-- Witness for claim2_featured_singleton: a two-message store where the
first message starts featured; featuring id 1 then id 2 leaves exactly
message 2 featured. -/
theorem claim2_featured_singleton_witness :
    (((postFeatured "2" (postFeatured "1"
        [{ _id := "1", title := "a", code := "a", date := 0, author := "a",
           description := "a", filePath := "", pdfFile := none, featured := true },
         { _id := "2", title := "b", code := "b", date := 1, author := "b",
           description := "b", filePath := "", pdfFile := none, featured := false }]).2).2).countP
      (fun m => m.featured) = 1) := by
  exact (claim2_featured_singleton _ "1" "2" (by decide) (by decide)).1

/-- C10: featuring an id that is absent from the message list answers 404,
but only after the handler has already cleared every featured flag: the
resulting state has no featured message at all, so the failed call does
mutate the store. -/
theorem claim10_featured_notfound_mutates (l : List Msg) (messageId : String)
    (h : messageId ∉ l.map (fun m => m._id)) :
    (postFeatured messageId l).1 = .notFound "Message not found" ∧
    (postFeatured messageId l).2 = clearFeatured l ∧
    ∀ m ∈ (postFeatured messageId l).2, m.featured = false := by
  have hnone : featureFirst messageId (clearFeatured l) = none :=
    featureFirst_eq_none_of_not_mem (by rw [clearFeatured_map_id]; exact h)
  simp only [postFeatured, hnone]
  exact ⟨trivial, trivial, fun m hm => mem_clearFeatured hm⟩

/-- Witness for claim10_featured_notfound_mutates: featuring the unknown
id 9 on a one-message store (whose message is featured) answers 404 and
leaves the message unfeatured. -/
theorem claim10_featured_notfound_mutates_witness :
    (postFeatured "9"
      [{ _id := "1", title := "a", code := "a", date := 0, author := "a",
         description := "a", filePath := "", pdfFile := none, featured := true }]).1 =
      .notFound "Message not found" := by
  exact (claim10_featured_notfound_mutates _ "9" (by decide)).1

/-- Witness for claim3_event_status at the worked example of the spec:
an event dated 2024-01-10 (UTC midnight, 1704844800000 ms) with no end
date is ongoing at noon the same day, completed at 00:00:01 of the next
day, and upcoming at 23:59:59 of the previous day. -/
theorem claim3_event_status_witness :
    calculateEventStatus 1704844800000 none 1704888000000 = .ongoing ∧
    calculateEventStatus 1704844800000 none 1704931201000 = .completed ∧
    calculateEventStatus 1704844800000 none 1704844799000 = .upcoming := by
  refine ⟨?_, ?_, ?_⟩
  · exact ((claim3_event_status 1704844800000 none 1704888000000).2.2.1 rfl).2.1
      (by decide) (by decide)
  · exact ((claim3_event_status 1704844800000 none 1704931201000).2.2.1 rfl).2.2
      (by decide)
  · exact ((claim3_event_status 1704844800000 none 1704844799000).2.2.1 rfl).1
      (by decide)

/-- C4: creating a message whose required fields are all non-empty
succeeds, and looking the assigned id up afterwards returns an entity
carrying exactly the submitted fields plus the assigned id, with featured
defaulted to false and any uploaded attachment preserved as the stored
pdfFile.  Proved on the fallback path, where the assigned id is
Date.now().toString() and the new entity is unshifted to the front, so the
id lookup (first match) finds it. -/
theorem claim4_upload_roundtrip (b : MsgBody) (file : Option FilePart)
    (parseDate : String → Nat) (nowMs : Nat) (temp : List Msg)
    (ht : b.title ≠ "") (hc : b.code ≠ "") (hd : b.date ≠ "") (ha : b.author ≠ "")
    (hde : b.description ≠ "") :
    (postUploadNoDb b file parseDate nowMs temp).1 =
      .redirect "/admin?success=Message uploaded successfully" ∧
    ∃ m, findMsgTemp (toString nowMs) (postUploadNoDb b file parseDate nowMs temp).2 = some m ∧
      m._id = toString nowMs ∧ m.title = b.title ∧ m.code = b.code ∧
      m.date = parseDate b.date ∧ m.author = b.author ∧ m.description = b.description ∧
      m.featured = false ∧ m.pdfFile = file.map pdfOfFile := by
  have hcond : (b.title == "" || b.code == "" || b.date == "" || b.author == "" ||
      b.description == "") = false := by
    simp [ht, hc, hd, ha, hde]
  refine ⟨?_, ⟨{ newMessageOfBody b file parseDate nowMs with
      _id := toString nowMs
      filePath := if file.isSome then "" else (newMessageOfBody b file parseDate nowMs).filePath },
    ?_, rfl, rfl, rfl, rfl, rfl, rfl, rfl, rfl⟩⟩
  · simp only [postUploadNoDb, hcond, Bool.false_eq_true, if_false]
  · simp only [postUploadNoDb, hcond, Bool.false_eq_true, if_false]
    simp [findMsgTemp, List.find?]

/-- Witness for claim4_upload_roundtrip: uploading a concrete message with
non-empty fields and no file, at Date.now() = 5, on an empty fallback
list. -/
theorem claim4_upload_roundtrip_witness :
    (postUploadNoDb
      { title := "T", code := "C", date := "2024-01-01", author := "A", description := "D" }
      none (fun _ => 42) 5 []).1 =
      .redirect "/admin?success=Message uploaded successfully" :=
  (claim4_upload_roundtrip _ none (fun _ => 42) 5 []
    (by decide) (by decide) (by decide) (by decide) (by decide)).1

theorem deleteMessageTemp_not_mem {messageId : String} {l : List Msg}
    (h : messageId ∉ l.map (fun m => m._id)) :
    deleteMessageTemp messageId l = l := by
  unfold deleteMessageTemp
  rw [List.filter_eq_self]
  intro m hm
  simp only [bne_iff_ne, ne_eq]
  exact fun hc => h (hc ▸ List.mem_map_of_mem (fun m => m._id) hm)

theorem deleteAnnTemp_not_mem {announcementId : String} {l : List Ann}
    (h : announcementId ∉ l.map (fun a => a._id)) :
    deleteAnnTemp announcementId l = l := by
  unfold deleteAnnTemp
  rw [List.filter_eq_self]
  intro a hm
  simp only [bne_iff_ne, ne_eq]
  exact fun hc => h (hc ▸ List.mem_map_of_mem (fun a => a._id) hm)

/-- C5 counterexample: the id 999 is absent from the seeded fallback list,
yet POST /delete/:id answers with the success redirect, not with a 404:
the claim that deleting a nonexistent id returns NotFound is false on this
code (the handler only logs the miss, lines 1728 and 1739, and always
redirects with success, line 1743). -/
theorem claim5_counterexample :
    ((tempMessagesInit.map (fun m => m._id)).contains "999") = false ∧
    (postDelete "999" tempMessagesInit).1 =
      .redirect "/admin?success=Message deleted successfully" ∧
    (postDelete "999" tempMessagesInit).1 ≠ .notFound "Message not found" := by
  exact ⟨by decide, rfl, by decide⟩

/-- C5 amended: deleting an id absent from the store never crashes and
never signals NotFound; it leaves the store unchanged and answers the
success redirect, and a second identical call behaves exactly the same
(both for messages and for announcements). -/
theorem claim5_amended_delete_absent (messageId : String) (l : List Msg) (al : List Ann)
    (hm : messageId ∉ l.map (fun m => m._id)) (ha : messageId ∉ al.map (fun a => a._id)) :
    postDelete messageId l = (.redirect "/admin?success=Message deleted successfully", l) ∧
    postDelete messageId (postDelete messageId l).2 =
      (.redirect "/admin?success=Message deleted successfully", l) ∧
    postDeleteAnnouncement messageId al =
      (.redirect "/admin-announcements?success=Announcement deleted successfully", al) ∧
    postDeleteAnnouncement messageId (postDeleteAnnouncement messageId al).2 =
      (.redirect "/admin-announcements?success=Announcement deleted successfully", al) := by
  have h1 : deleteMessageTemp messageId l = l := deleteMessageTemp_not_mem hm
  have h2 : deleteAnnTemp messageId al = al := deleteAnnTemp_not_mem ha
  refine ⟨?_, ?_, ?_, ?_⟩ <;> simp [postDelete, postDeleteAnnouncement, h1, h2]

/-- Witness for claim5_amended_delete_absent: deleting the unknown id 999
from the seeded message list (and an empty announcement list) twice. -/
theorem claim5_amended_delete_absent_witness :
    postDelete "999" tempMessagesInit =
      (.redirect "/admin?success=Message deleted successfully", tempMessagesInit) :=
  (claim5_amended_delete_absent "999" tempMessagesInit [] (by decide) (by decide)).1

theorem setAtFirst_cons_pos {messageId : String} {p : MsgPatch} {m : Msg} {t : List Msg}
    (hm : m._id = messageId) :
    setAtFirst messageId p (m :: t) =
      some ({ m with
        title := p.title
        code := p.code
        date := p.date
        author := p.author
        description := p.description
        filePath := p.filePath
        pdfFile := p.pdfFile } :: t) := by
  simp [setAtFirst, hm]

theorem setAtFirst_cons_neg {messageId : String} {p : MsgPatch} {m : Msg} {t : List Msg}
    (hm : m._id ≠ messageId) :
    setAtFirst messageId p (m :: t) = (setAtFirst messageId p t).map (m :: ·) := by
  simp [setAtFirst, hm]

theorem setAtFirst_mem_some {messageId : String} {p : MsgPatch} {l : List Msg}
    (h : messageId ∈ l.map (fun m => m._id)) :
    ∃ l2, setAtFirst messageId p l = some l2 := by
  induction l with
  | nil => simp at h
  | cons m t ih =>
    by_cases hm : m._id = messageId
    · exact ⟨_, setAtFirst_cons_pos hm⟩
    · simp only [List.map_cons, List.mem_cons] at h
      rcases h with h1 | h1
      · exact absurd h1.symm hm
      · obtain ⟨t2, ht2⟩ := ih h1
        exact ⟨m :: t2, by rw [setAtFirst_cons_neg hm, ht2]; rfl⟩

theorem find_setAtFirst {messageId : String} {p : MsgPatch} {l l2 : List Msg}
    (h : setAtFirst messageId p l = some l2) :
    ∃ old, findMsgTemp messageId l = some old ∧
      findMsgTemp messageId l2 =
        some { old with
          title := p.title
          code := p.code
          date := p.date
          author := p.author
          description := p.description
          filePath := p.filePath
          pdfFile := p.pdfFile } := by
  induction l generalizing l2 with
  | nil => simp [setAtFirst] at h
  | cons m t ih =>
    by_cases hm : m._id = messageId
    · rw [setAtFirst_cons_pos hm] at h
      cases h
      refine ⟨m, ?_, ?_⟩
      · simp [findMsgTemp, List.find?, hm]
      · simp [findMsgTemp, List.find?, hm]
    · rw [setAtFirst_cons_neg hm] at h
      cases hft : setAtFirst messageId p t with
      | none => rw [hft] at h; simp at h
      | some t2 =>
        rw [hft] at h
        have h2 : m :: t2 = l2 := by simpa using h
        subst h2
        obtain ⟨old, hf1, hf2⟩ := ih hft
        refine ⟨old, ?_, ?_⟩
        · rw [findMsgTemp, List.find?_cons_of_neg _ (by simp [hm])]
          exact hf1
        · rw [findMsgTemp, List.find?_cons_of_neg _ (by simp [hm])]
          exact hf2

/-- C9: for a stored message (id present, required fields of the patch
non-empty), updating with the removeFile flag set succeeds and a
subsequent GET /pdf/:id answers 404 No PDF available, whatever the
filesystem contains; updating with neither a new file nor the flag
succeeds and stores the old entity with exactly the five form fields
patched, the attachment (pdfFile and legacy filePath, re-read from the
store before merging) left unchanged. -/
theorem claim9_update_attachment (b : MsgBody) (file : Option FilePart)
    (messageId : String) (parseDate : String → Nat) (l : List Msg) (fsExists : String → Bool)
    (ht : b.title ≠ "") (hc : b.code ≠ "") (hd : b.date ≠ "") (ha : b.author ≠ "")
    (hde : b.description ≠ "") (hid : messageId ∈ l.map (fun m => m._id)) :
    ((postUpdateNoDb b true file messageId parseDate l).1 =
        .redirect "/admin?success=Message updated successfully" ∧
      getPdfNoDb messageId (postUpdateNoDb b true file messageId parseDate l).2 fsExists =
        .noPdf) ∧
    ((postUpdateNoDb b false none messageId parseDate l).1 =
        .redirect "/admin?success=Message updated successfully" ∧
      ∃ old, findMsgTemp messageId l = some old ∧
        findMsgTemp messageId (postUpdateNoDb b false none messageId parseDate l).2 =
          some { old with
            title := b.title
            code := b.code
            date := parseDate b.date
            author := b.author
            description := b.description }) := by
  have hcond : (b.title == "" || b.code == "" || b.date == "" || b.author == "" ||
      b.description == "") = false := by
    simp [ht, hc, hd, ha, hde]
  constructor
  · obtain ⟨l2, hset⟩ :=
      setAtFirst_mem_some (p := updatePatch b true file messageId parseDate l) hid
    have hpost : postUpdateNoDb b true file messageId parseDate l =
        (.redirect "/admin?success=Message updated successfully", l2) := by
      simp only [postUpdateNoDb, hcond, Bool.false_eq_true, if_false, hset]
    obtain ⟨old, hf1, hf2⟩ := find_setAtFirst hset
    refine ⟨by rw [hpost], ?_⟩
    rw [hpost]
    simp only [getPdfNoDb]
    rw [hf2]
    rfl
  · obtain ⟨l2, hset⟩ :=
      setAtFirst_mem_some (p := updatePatch b false none messageId parseDate l) hid
    have hpost : postUpdateNoDb b false none messageId parseDate l =
        (.redirect "/admin?success=Message updated successfully", l2) := by
      simp only [postUpdateNoDb, hcond, Bool.false_eq_true, if_false, hset]
    obtain ⟨old, hf1, hf2⟩ := find_setAtFirst hset
    refine ⟨by rw [hpost], old, hf1, ?_⟩
    rw [hpost]
    rw [hf2]
    have hpatch : updatePatch b false none messageId parseDate l =
        { title := b.title
          code := b.code
          date := parseDate b.date
          author := b.author
          description := b.description
          filePath := old.filePath
          pdfFile := old.pdfFile } := by
      simp only [updatePatch, if_false, Bool.false_eq_true, hf1]
      rfl
    rw [hpatch]

/-- Witness for claim9_update_attachment: updating message 1 of the seeded
list with removeFile set makes GET /pdf/1 answer No PDF available even on
a filesystem where every path exists. -/
theorem claim9_update_attachment_witness :
    getPdfNoDb "1"
      (postUpdateNoDb
        { title := "T", code := "C", date := "2024-01-01", author := "A", description := "D" }
        true none "1" (fun _ => 42) tempMessagesInit).2 (fun _ => true) = .noPdf :=
  (claim9_update_attachment _ none "1" (fun _ => 42) tempMessagesInit (fun _ => true)
    (by decide) (by decide) (by decide) (by decide) (by decide) (by decide)).1.2

/-- C8 counterexample: searching for the query with a trailing space,
john followed by a blank, returns the first seeded message (its author
Pastor John matches the trimmed term), although that raw query is not a
case-insensitive substring of any of its title, description, author or
code; so the operation does not return exactly the messages matched by
the query as submitted. -/
theorem claim8_counterexample :
    searchRoute "john " tempMessagesInit = .results [tempMsg1] ∧
    msgMatches "john " tempMsg1 = false := by
  exact ⟨by decide, by decide⟩

/-- C8 amended: search returns exactly the messages for which the trimmed
query is a case-insensitive substring of at least one of title,
description, author or code; an empty or whitespace-only query redirects
to the unfiltered list instead of searching; and a trimmed query matching
no field yields an empty result list, not an error. -/
theorem claim8_amended_search (q : String) (l : List Msg) :
    (jsTrim q = "" → searchRoute q l = .redirectMessages) ∧
    (jsTrim q ≠ "" →
      ∃ ms, searchRoute q l = .results ms ∧
        ∀ m, m ∈ ms ↔ m ∈ l ∧ msgMatches (jsTrim q) m = true) ∧
    (jsTrim q ≠ "" → (∀ m ∈ l, msgMatches (jsTrim q) m = false) →
      searchRoute q l = .results []) := by
  refine ⟨fun h => ?_, fun h => ?_, fun h hall => ?_⟩
  · simp [searchRoute, h]
  · have hbe : (jsTrim q == "") = false := by simp [h]
    refine ⟨l.filter (msgMatches (jsTrim q)), ?_, fun m => List.mem_filter⟩
    simp [searchRoute, hbe]
  · have hbe : (jsTrim q == "") = false := by simp [h]
    have hnil : l.filter (msgMatches (jsTrim q)) = [] := by
      rw [List.filter_eq_nil_iff]
      intro m hm
      simp [hall m hm]
    simp [searchRoute, hbe, hnil]

/-- Witness for claim8_amended_search: a whitespace-only query on the
seeded store redirects to the unfiltered list. -/
theorem claim8_amended_search_witness :
    searchRoute "   " tempMessagesInit = .redirectMessages :=
  (claim8_amended_search "   " tempMessagesInit).1 (by decide)

theorem annCmpLe_eq_true_iff (a b : Ann) : annCmpLe a b = true ↔
    (a.featured = true ∧ b.featured = false) ∨
    (a.featured = b.featured ∧
      (b.priority < a.priority ∨ (a.priority = b.priority ∧ b.createdAt ≤ a.createdAt))) := by
  unfold annCmpLe
  cases haf : a.featured <;> cases hbf : b.featured <;>
    by_cases hp : a.priority = b.priority <;> simp [hp] <;> omega

theorem annCmpLe_total (a b : Ann) : (annCmpLe a b || annCmpLe b a) = true := by
  rw [Bool.or_eq_true, annCmpLe_eq_true_iff, annCmpLe_eq_true_iff]
  cases haf : a.featured <;> cases hbf : b.featured <;> simp <;> omega

theorem annCmpLe_trans (a b c : Ann) (hab : annCmpLe a b = true)
    (hbc : annCmpLe b c = true) : annCmpLe a c = true := by
  rw [annCmpLe_eq_true_iff] at hab hbc ⊢
  cases haf : a.featured <;> cases hbf : b.featured <;> cases hcf : c.featured <;>
    simp [haf, hbf, hcf] at hab hbc ⊢ <;> omega

theorem annCmpLe_imp_ordered {a b : Ann} (h : annCmpLe a b = true) : annOrdered a b := by
  rw [annCmpLe_eq_true_iff] at h
  unfold annOrdered
  rcases h with ⟨h1, h2⟩ | ⟨h1, h2⟩
  · refine ⟨fun _ => h1, fun hc => ?_⟩
    rw [hc, h2] at h1
    cases h1
  · exact ⟨fun hb => h1.trans hb, fun _ => h2⟩

/-- C6: for every store state and time, the public announcement listing
returns at most three entries, only entries that are active and not
expired at that time, and consecutive entries are ordered by featured
descending, then priority descending, then creation timestamp
descending. -/
theorem claim6_active_announcements (now : Nat) (l : List Ann) :
    (activeAnnouncementsTemp now l).length ≤ 3 ∧
    (∀ a ∈ activeAnnouncementsTemp now l, a.active = true ∧
      ∀ e, a.expiresAt = some e → now < e) ∧
    (activeAnnouncementsTemp now l).Pairwise annOrdered := by
  refine ⟨List.length_take_le 3 _, fun a ha => ?_, ?_⟩
  · have hmem : a ∈ (l.filter (annVisible now)).mergeSort annCmpLe :=
      List.take_subset 3 _ ha
    have hmem2 : a ∈ l.filter (annVisible now) :=
      (List.mergeSort_perm (l.filter (annVisible now)) annCmpLe).mem_iff.mp hmem
    have hvis : annVisible now a = true := (List.mem_filter.mp hmem2).2
    unfold annVisible at hvis
    rw [Bool.and_eq_true] at hvis
    refine ⟨hvis.1, fun e he => ?_⟩
    have h2 := hvis.2
    rw [he] at h2
    exact of_decide_eq_true h2
  · have hp := List.sorted_mergeSort annCmpLe_trans annCmpLe_total (l.filter (annVisible now))
    exact (List.Pairwise.sublist (List.take_sublist 3 _) hp).imp (fun h => annCmpLe_imp_ordered h)

/-- Witness for claim6_active_announcements at a concrete store: one
expired and one inactive announcement produce a listing of length at most
three. -/
theorem claim6_active_announcements_witness :
    (activeAnnouncementsTemp 50
      [{ _id := "a1", title := "t", content := "c", priority := 3, type := "announcement",
         backgroundColor := "#000000dc", textColor := "#ffffff", imageFile := none,
         featured := false, active := true, expiresAt := some 40, createdAt := 10,
         displayOrder := 0 },
       { _id := "a2", title := "u", content := "d", priority := 5, type := "banner",
         backgroundColor := "#000000dc", textColor := "#ffffff", imageFile := none,
         featured := true, active := false, expiresAt := none, createdAt := 20,
         displayOrder := 0 }]).length ≤ 3 :=
  (claim6_active_announcements 50 _).1

theorem msgCmpLe_eq_true_iff (a b : Msg) : msgCmpLe a b = true ↔
    (a.featured = true ∧ b.featured = false) ∨
    (a.featured = b.featured ∧ b.date ≤ a.date) := by
  unfold msgCmpLe
  cases haf : a.featured <;> cases hbf : b.featured <;> simp

theorem msgCmpLe_total (a b : Msg) : (msgCmpLe a b || msgCmpLe b a) = true := by
  rw [Bool.or_eq_true, msgCmpLe_eq_true_iff, msgCmpLe_eq_true_iff]
  cases haf : a.featured <;> cases hbf : b.featured <;> simp <;> omega

theorem msgCmpLe_trans (a b c : Msg) (hab : msgCmpLe a b = true)
    (hbc : msgCmpLe b c = true) : msgCmpLe a c = true := by
  rw [msgCmpLe_eq_true_iff] at hab hbc ⊢
  cases haf : a.featured <;> cases hbf : b.featured <;> cases hcf : c.featured <;>
    simp [haf, hbf, hcf] at hab hbc ⊢ <;> omega

theorem msgCmpLe_imp_ordered {a b : Msg} (h : msgCmpLe a b = true) : msgOrdered a b := by
  rw [msgCmpLe_eq_true_iff] at h
  unfold msgOrdered
  rcases h with ⟨h1, h2⟩ | ⟨h1, h2⟩
  · refine ⟨fun _ => h1, fun hc => ?_⟩
    rw [hc, h2] at h1
    cases h1
  · exact ⟨fun hb => h1.trans hb, fun _ => h2⟩

/-- C7: the all-messages view returns a permutation of the store in which
every featured entry precedes every unfeatured entry and, within each of
the two groups, entries come in descending date order (for any two
consecutive entries: a featured one never follows an unfeatured one, and
equal featured flags force non-increasing dates). -/
theorem claim7_messages_order (l : List Msg) :
    (messagesPageTemp l).Perm l ∧ (messagesPageTemp l).Pairwise msgOrdered := by
  refine ⟨List.mergeSort_perm l msgCmpLe, ?_⟩
  have hp := List.sorted_mergeSort msgCmpLe_trans msgCmpLe_total l
  exact hp.imp (fun h => msgCmpLe_imp_ordered h)

/-- Witness for claim7_messages_order at the seeded store. -/
theorem claim7_messages_order_witness :
    (messagesPageTemp tempMessagesInit).Perm tempMessagesInit :=
  (claim7_messages_order tempMessagesInit).1

/-- C1 fails on events: with the durable backend unavailable, creating an
event whose required fields are all present does not silently succeed
against a fallback list; the fallback branch reads the undeclared
tempEvents, the resulting ReferenceError reaches the outer catch, and the
handler surfaces a 500 to the caller (and likewise event deletion).  The
messages and announcements fallback paths do behave as claimed (see the
claim4, claim5 and claim9 theorems), but the claim quantifies over every
entity type. -/
theorem claim1_event_fallback_crashes (b : EventBody) (file : ImageFile) (eventId : String)
    (ht : b.title ≠ "") (hd : b.date ≠ "") (hv : b.venue ≠ "") (hde : b.description ≠ "") :
    postUploadEventNoDb b (some file) =
      .serverError "Error uploading event: tempEvents is not defined" ∧
    (∀ loc, postUploadEventNoDb b (some file) ≠ .redirect loc) ∧
    postDeleteEventNoDb eventId = .serverError "Error deleting event" := by
  have hcond : (b.title == "" || b.date == "" || b.venue == "" || b.description == "" ||
      (some file).isNone) = false := by
    simp [ht, hd, hv, hde]
  refine ⟨?_, ?_, rfl⟩
  · simp only [postUploadEventNoDb, hcond, Bool.false_eq_true, if_false]
    rfl
  · intro loc
    simp only [postUploadEventNoDb, hcond, Bool.false_eq_true, if_false]
    intro hc
    cases hc

/-- Witness for claim1_event_fallback_crashes: a concrete valid event
upload with the backend down answers 500. -/
theorem claim1_event_fallback_crashes_witness :
    postUploadEventNoDb
      { title := "Revival Night", date := "2024-01-01", endDate := "", venue := "Main Hall",
        description := "An evening service", link := "", featured := false }
      (some { data := [1], contentType := "image/png", filename := "e.png", size := 1 }) =
      .serverError "Error uploading event: tempEvents is not defined" :=
  (claim1_event_fallback_crashes _
    { data := [1], contentType := "image/png", filename := "e.png", size := 1 } "1"
    (by decide) (by decide) (by decide) (by decide)).1

end ChurchSite
